import Mathlib

/-!
# Shallow embedding of the cj-scraper price-sync engine

This file embeds the price-sync reconciliation engine of the repository
(`src/backend/price_sync/{calculator,matcher,sync}.js` and the alternative
orchestrator in `src/unnamed/part_008`) into Lean and proves or refutes the
frozen claims about it.

Monetary values are modelled as rationals (`ℚ`); JavaScript's
`Number.prototype.toFixed(f)` (round to `f` decimals, ties towards the larger
result per ECMA-262) is modelled by `round2`/`round1`.  Network and filesystem
interaction is modelled by explicit oracles and effect traces.
-/

namespace CJScraper

/-- Model of JavaScript `parseFloat(x.toFixed(2))`: round to 2 decimal places,
ties towards the larger value (ECMA-262 `toFixed` picks the larger candidate
on a tie). -/
def round2 (x : ℚ) : ℚ := (⌊x * 100 + 1/2⌋ : ℚ) / 100

/-- Model of `parseFloat(x.toFixed(1))`. -/
def round1 (x : ℚ) : ℚ := (⌊x * 10 + 1/2⌋ : ℚ) / 10

/-!
## calculator.js
-/

/-- `roundToEnding(price, ending)` from `calculator.js` lines 36–51, translated
branch for branch: the early-return branch keeps `whole + ending` whenever the
current decimal part is within `0.1` of the ending; otherwise the decimal part
is compared against the `0.5` threshold. -/
def roundToEnding (price : ℚ) (ending : ℚ) : ℚ :=
  let whole : ℚ := (⌊price⌋ : ℚ)
  let decimal : ℚ := price - whole
  if |decimal - ending| < 1/10 then
    whole + ending
  else if decimal ≥ 1/2 then
    whole + 1 + ending
  else
    whole + ending

/-- The effective pricing options used by `calculatePrice` after merging the
call-site `options` with the stored config (`calculator.js` lines 62–67).
Optional numeric fields are `Option ℚ`; JavaScript truthiness (`null` and `0`
both falsy) is modelled by `qTruthy`. -/
structure PricingPolicy where
  markup_multiplier : ℚ
  min_price : Option ℚ
  max_price : Option ℚ
  round_to : Option ℚ
  show_compare_at : Bool
  compare_at_markup : ℚ
  deriving Repr, DecidableEq

/-- JavaScript truthiness of an optional number: `null` and `0` are falsy. -/
def qTruthy : Option ℚ → Bool
  | none => false
  | some v => v ≠ 0

/-- The numeric value of an optional field (only consulted after a
`qTruthy` check succeeds). -/
def qVal : Option ℚ → ℚ
  | none => 0
  | some v => v

/-- `calculatedPrice` after the markup step (`calculator.js` line 70). -/
def markedUpPrice (cjPrice : ℚ) (o : PricingPolicy) : ℚ :=
  cjPrice * o.markup_multiplier

/-- `calculatedPrice` after the rounding step (`calculator.js` lines 73–75). -/
def roundedPrice (cjPrice : ℚ) (o : PricingPolicy) : ℚ :=
  if qTruthy o.round_to then
    roundToEnding (markedUpPrice cjPrice o) (qVal o.round_to)
  else
    markedUpPrice cjPrice o

/-- `calculatedPrice` after the minimum-price clamp (`calculator.js`
lines 78–80). -/
def flooredPrice (cjPrice : ℚ) (o : PricingPolicy) : ℚ :=
  if qTruthy o.min_price ∧ roundedPrice cjPrice o < qVal o.min_price then
    qVal o.min_price
  else
    roundedPrice cjPrice o

/-- `calculatedPrice` after the maximum-price clamp (`calculator.js`
lines 83–85). -/
def cappedPrice (cjPrice : ℚ) (o : PricingPolicy) : ℚ :=
  if qTruthy o.max_price ∧ flooredPrice cjPrice o > qVal o.max_price then
    qVal o.max_price
  else
    flooredPrice cjPrice o

/-- The compare-at price before the final 2-decimal rounding
(`calculator.js` lines 88–94). -/
def compareAtRaw (cjPrice : ℚ) (o : PricingPolicy) : Option ℚ :=
  if o.show_compare_at then
    let c := cappedPrice cjPrice o * o.compare_at_markup
    if qTruthy o.round_to then some (roundToEnding c (qVal o.round_to)) else some c
  else
    none

/-- Result shape of `calculatePrice`. -/
structure PriceResult where
  price : ℚ
  compareAtPrice : Option ℚ
  deriving Repr, DecidableEq

/-- `calculatePrice(cjPrice, options)` from `calculator.js` lines 59–100, with
the merged options supplied as a `PricingPolicy`.  The final line converts the
compare-at value with `compareAtPrice ? parseFloat(compareAtPrice.toFixed(2)) :
null`, so a computed compare-at of `0` collapses to `null`. -/
def calculatePrice (cjPrice : ℚ) (o : PricingPolicy) : PriceResult :=
  { price := round2 (cappedPrice cjPrice o)
    compareAtPrice :=
      match compareAtRaw cjPrice o with
      | some c => if c ≠ 0 then some (round2 c) else none
      | none => none }

/-- Result shape of `calculateChange`. -/
structure ChangeResult where
  change : ℚ
  changePercent : ℚ
  direction : String
  deriving Repr, DecidableEq

/-- `calculateChange(oldPrice, newPrice)` from `calculator.js` lines 118–131:
the direction thresholds compare the raw delta against `±0.01`, and the
percentage guard returns `0` unless `oldPrice > 0`. -/
def calculateChange (oldPrice newPrice : ℚ) : ChangeResult :=
  let change := newPrice - oldPrice
  let changePercent := if oldPrice > 0 then change / oldPrice * 100 else 0
  let direction :=
    if change > 1/100 then "increase"
    else if change < -(1/100) then "decrease"
    else "none"
  { change := round2 change
    changePercent := round1 changePercent
    direction := direction }

/-!
## Effects and shared data shapes

External interaction (supplier API reads, storefront writes) is tracked as an
explicit effect trace so that frame properties ("preview writes nothing") and
call-count properties ("zero network calls while rate limited") are statable.
-/

/-- One externally visible operation. -/
inductive Effect where
  | catalogRead
  | cjQuery (pid : String)
  | shopifyPriceWrite (variantId : String)
  | metafieldWrite (productId : String) (cjProductId : String)
  deriving Repr, DecidableEq

/-- Effects that mutate storefront state (price/compare-price writes and
link-attribute writes); supplier queries and catalog reads are not mutations. -/
def Effect.isStorefrontWrite : Effect → Bool
  | .shopifyPriceWrite _ => true
  | .metafieldWrite _ _ => true
  | _ => false

/-- A storefront product as produced by `fetchShopifyProducts`
(`matcher.js` lines 96–108).  `sku` and `cjProductId` are `none` when the
corresponding JavaScript value is falsy (`variant.sku || null`,
`metafields[KEY] || null`). -/
structure ShopifyProduct where
  shopifyId : String
  title : String
  variantId : String
  sku : Option String
  currentPrice : ℚ
  currentCompareAtPrice : Option ℚ
  cjProductId : Option String
  deriving Repr, DecidableEq

/-- JavaScript truthiness of an optional string: `null` and `""` are falsy. -/
def sTruthy : Option String → Bool
  | none => false
  | some st => st ≠ ""

/-- The string value of an optional field (only consulted after a
`sTruthy` check succeeds). -/
def sVal : Option String → String
  | none => ""
  | some st => st

/-!
## matcher.js
-/

/-- Outcome of one supplier `product/query` call as seen by
`matcher.js`'s `fetchCJProduct`: the product with its parsed `sellPrice`,
a not-found/empty response, or a thrown transport error. -/
inductive MatchNet where
  | found (sellPrice : ℚ)
  | notFound
  | threw
  deriving Repr, DecidableEq

/-- `fetchCJProduct(pid, token)` from `matcher.js` lines 136–152: it always
performs the network call (one `cjQuery` effect) and maps both the not-found
response and a thrown error to `null`.  It has no cache and no rate-limit
check. -/
def fetchCJProduct (pid : String) (resp : MatchNet) : Option ℚ × List Effect :=
  match resp with
  | .found p => (some p, [.cjQuery pid])
  | .notFound => (none, [.cjQuery pid])
  | .threw => (none, [.cjQuery pid])

/-- `fetchCJPricesBatch(productIds, token)` from `matcher.js` lines 160–181:
one `fetchCJProduct` call per id, keeping an entry only when the product was
found with a truthy (non-zero) `sellPrice`. -/
def fetchCJPricesBatch (net : String → MatchNet) :
    List String → List (String × ℚ) × List Effect
  | [] => ([], [])
  | pid :: rest =>
    let r := fetchCJProduct pid (net pid)
    let acc := fetchCJPricesBatch net rest
    match r.1 with
    | some q =>
      if q ≠ 0 then ((pid, q) :: acc.1, r.2 ++ acc.2) else (acc.1, r.2 ++ acc.2)
    | none => (acc.1, r.2 ++ acc.2)

/-- A matched product record (`matcher.js` lines 264–268 and 280–285). -/
structure MatchedProduct where
  product : ShopifyProduct
  cjProductId : String
  cjPrice : ℚ
  matchMethod : String
  deriving Repr, DecidableEq

/-- An unmatched product record (`matcher.js` lines 270, 287, 295). -/
structure UnmatchedProduct where
  product : ShopifyProduct
  reason : String
  deriving Repr, DecidableEq

/-- Result of `matchProducts`, together with the trace of effects the matcher
performed. -/
structure MatchResult where
  matched : List MatchedProduct
  unmatched : List UnmatchedProduct
  trace : List Effect
  deriving Repr, DecidableEq

/-- The metafield branch of `matchProducts` (`matcher.js` lines 257–273):
products whose `cjProductId` is in the batch price map become matched with
`matchMethod = "metafield"`, the rest unmatched. -/
def matchByCjId (prices : List (String × ℚ)) :
    List ShopifyProduct → List MatchedProduct × List UnmatchedProduct
  | [] => ([], [])
  | p :: rest =>
    let acc := matchByCjId prices rest
    match prices.lookup (sVal p.cjProductId) with
    | some q => (⟨p, sVal p.cjProductId, q, "metafield"⟩ :: acc.1, acc.2)
    | none => (acc.1, ⟨p, "CJ product not found"⟩ :: acc.2)

/-- The SKU-fallback branch of `matchProducts` (`matcher.js` lines 276–290):
each product's `sku` is tried directly as a supplier id via `fetchCJProduct`;
on success the in-memory matched record carries `cjProductId = sku` and
`matchMethod = "sku"`.  No storefront write of any kind is performed. -/
def matchBySku (net : String → MatchNet) :
    List ShopifyProduct → List MatchedProduct × List UnmatchedProduct × List Effect
  | [] => ([], [], [])
  | p :: rest =>
    let r := fetchCJProduct (sVal p.sku) (net (sVal p.sku))
    let acc := matchBySku net rest
    match r.1 with
    | some q =>
      if q ≠ 0 then
        (⟨p, sVal p.sku, q, "sku"⟩ :: acc.1, acc.2.1, r.2 ++ acc.2.2)
      else
        (acc.1, ⟨p, "SKU not a valid CJ ID"⟩ :: acc.2.1, r.2 ++ acc.2.2)
    | none => (acc.1, ⟨p, "SKU not a valid CJ ID"⟩ :: acc.2.1, r.2 ++ acc.2.2)

/-- `matchProducts(shopifyProducts, cjToken)` from `matcher.js`
lines 242–303: partition by the presence of a truthy `cjProductId` /
`sku`, resolve the first group through the batch price fetch, the second
through the per-sku lookup, and mark the remainder unmatched with the
title-matching-disabled reason.  The function performs supplier reads only;
it never calls `setCJMetafield`. -/
def matchProducts (products : List ShopifyProduct) (net : String → MatchNet) :
    MatchResult :=
  let withCjId := products.filter (fun p => sTruthy p.cjProductId)
  let withSku := products.filter (fun p => ¬sTruthy p.cjProductId ∧ sTruthy p.sku)
  let needsTitleMatch :=
    products.filter (fun p => ¬sTruthy p.cjProductId ∧ ¬sTruthy p.sku)
  let cjIds := withCjId.map (fun p => sVal p.cjProductId)
  let batch := fetchCJPricesBatch net cjIds
  let byId := matchByCjId batch.1 withCjId
  let bySku := matchBySku net withSku
  let titleUnmatched := needsTitleMatch.map
    (fun p => (⟨p, "No CJ ID or SKU - title matching disabled"⟩ : UnmatchedProduct))
  { matched := byId.1 ++ bySku.1
    unmatched := byId.2 ++ bySku.2.1 ++ titleUnmatched
    trace := batch.2 ++ bySku.2.2 }

/-- `setCJMetafield(productId, cjProductId, store, token)` from `matcher.js`
lines 313–368: one metafield write attempt; returns whether it succeeded.
In the repository it is invoked only from the manual
`POST /api/set-cj-metafield` endpoint, never from `matchProducts`. -/
def setCJMetafield (productId cjProductId : String) (succeeds : Bool) :
    Bool × List Effect :=
  (succeeds, [.metafieldWrite productId cjProductId])

/-!
## sync.js : cached, rate-limit-aware supplier price lookup
-/

/-- One cache entry of `cjPriceCache` (`sync.js` line 45): the price that was
stored (possibly `null`) and the timestamp of the store. -/
structure CacheEntry where
  price : Option ℚ
  ts : ℕ
  deriving Repr, DecidableEq

/-- The module-level mutable state of `sync.js` (lines 19–23):
`cjPriceCache`, `cjRateLimited` and `cjErrorLogged`. -/
structure SyncState where
  cache : List (String × CacheEntry)
  rateLimited : Bool
  errorLogged : Bool
  deriving Repr, DecidableEq

/-- The empty initial module state. -/
def SyncState.init : SyncState := ⟨[], false, false⟩

/-- `CJ_CACHE_TTL` (`sync.js` line 20), in milliseconds. -/
def CJ_CACHE_TTL : ℕ := 24 * 60 * 60 * 1000

/-- Outcome of one supplier `product/query` call as seen by `sync.js`'s
`fetchCJPrice`: a successful response carrying the parsed `sellPrice`, a
result-less response carrying the error `code` and whether the message
mentions "Too Many Requests", or a thrown error carrying the optional HTTP
status. -/
inductive CJResponse where
  | ok (sellPrice : ℚ)
  | noData (code : ℤ) (tooManyMsg : Bool)
  | threw (status : Option ℕ)
  deriving Repr, DecidableEq

/-- Log lines `fetchCJPrice` can emit. -/
inductive SyncLog where
  | rateLimitedLog
  | noDataLog
  | errorLog
  deriving Repr, DecidableEq

/-- Result of one `fetchCJPrice` invocation: the resolved price, the updated
module state, the network effects performed and the log lines emitted. -/
structure FetchResult where
  price : Option ℚ
  state : SyncState
  effects : List Effect
  logs : List SyncLog
  deriving Repr, DecidableEq

/-- The non-cached path of `fetchCJPrice` (`sync.js` lines 32–74): short-circuit
to `null` while `cjRateLimited` is set; otherwise perform the network call and
handle success (reset `cjErrorLogged`, cache `parseFloat(sellPrice) || null`),
the two rate-limit signals (code `1600200` / "Too Many Requests" message, and
HTTP 429 — each logs once and sets `cjRateLimited`), the no-data response
(log-once, cache `null`) and other thrown errors (log-once, no cache write). -/
def fetchCJPriceNet (pid : String) (now : ℕ) (resp : CJResponse)
    (s : SyncState) : FetchResult :=
  if s.rateLimited then ⟨none, s, [], []⟩
  else
    match resp with
    | .ok sellPrice =>
      let price := if sellPrice ≠ 0 then some sellPrice else none
      ⟨price,
        { s with errorLogged := false, cache := (pid, ⟨price, now⟩) :: s.cache },
        [.cjQuery pid], []⟩
    | .noData code tooManyMsg =>
      if code = 1600200 ∨ tooManyMsg then
        ⟨none, { s with rateLimited := true }, [.cjQuery pid], [.rateLimitedLog]⟩
      else
        ⟨none,
          { s with errorLogged := true, cache := (pid, ⟨none, now⟩) :: s.cache },
          [.cjQuery pid], if s.errorLogged then [] else [.noDataLog]⟩
    | .threw status =>
      if status = some 429 then
        ⟨none, { s with rateLimited := true }, [.cjQuery pid], [.rateLimitedLog]⟩
      else
        ⟨none, { s with errorLogged := true }, [.cjQuery pid],
          if s.errorLogged then [] else [.errorLog]⟩

/-- `fetchCJPrice(pid, cjToken)` from `sync.js` lines 25–75: a fresh cache
entry (younger than `CJ_CACHE_TTL`) is returned as-is — before the
rate-limit check and with no network call — and everything else goes through
`fetchCJPriceNet`. -/
def fetchCJPrice (pid : String) (now : ℕ) (resp : CJResponse)
    (s : SyncState) : FetchResult :=
  match s.cache.lookup pid with
  | some c =>
    if now - c.ts < CJ_CACHE_TTL then ⟨c.price, s, [], []⟩
    else fetchCJPriceNet pid now resp s
  | none => fetchCJPriceNet pid now resp s

/-!
## sync.js : preview and execute orchestrators
-/

/-- Outcome of one storefront `productVariantsBulkUpdate` call as seen by
`updateShopifyPrice` (`sync.js` lines 80–123): success, a GraphQL
`errors`/`userErrors` response, or a thrown transport error. -/
inductive UpdateNet where
  | ok
  | userErrors (msg : String)
  | transportError (msg : String)
  deriving Repr, DecidableEq

/-- `updateShopifyPrice(product, …)` from `sync.js` lines 80–123: one price
write attempt (the effect happens even when the response is an error); both
error shapes are converted to a `{success:false, error}` return — the function
never throws. `none` means success. -/
def updateShopifyPrice (variantId : String) (resp : UpdateNet) :
    Option String × List Effect :=
  match resp with
  | .ok => (none, [.shopifyPriceWrite variantId])
  | .userErrors m => (some m, [.shopifyPriceWrite variantId])
  | .transportError m => (some m, [.shopifyPriceWrite variantId])

/-- One row of the preview payload (`sync.js` lines 168–192). -/
structure PreviewRow where
  shopifyId : String
  title : String
  cjProductId : String
  cjPrice : Option ℚ
  currentPrice : ℚ
  newPrice : Option ℚ
  direction : String
  deriving Repr, DecidableEq

/-- Accumulator of the preview loop (`sync.js` lines 154–196). -/
structure PreviewAcc where
  rows : List PreviewRow
  increases : ℕ
  decreases : ℕ
  noChange : ℕ
  missing : ℕ
  state : SyncState
  trace : List Effect
  deriving Repr, DecidableEq

/-- The preview loop of `generatePreview` (`sync.js` lines 157–196): one
`fetchCJPrice` per sampled product (threading the module state), a priced row
with direction classification on success, a `missing` row with direction
`"unknown"` otherwise. -/
def previewLoop (now : ℕ) (resp : String → CJResponse) (opts : PricingPolicy) :
    List ShopifyProduct → SyncState → PreviewAcc
  | [], s => ⟨[], 0, 0, 0, 0, s, []⟩
  | p :: rest, s =>
    let pid := sVal p.cjProductId
    let fr := fetchCJPrice pid now (resp pid) s
    let acc := previewLoop now resp opts rest fr.state
    match fr.price with
    | some cjPrice =>
      let pr := calculatePrice cjPrice opts
      let ch := calculateChange p.currentPrice pr.price
      { rows := ⟨p.shopifyId, p.title, pid, some cjPrice, p.currentPrice,
          some pr.price, ch.direction⟩ :: acc.rows
        increases := (if ch.direction = "increase" then 1 else 0) + acc.increases
        decreases := (if ch.direction = "decrease" then 1 else 0) + acc.decreases
        noChange :=
          (if ch.direction ≠ "increase" ∧ ch.direction ≠ "decrease" then 1 else 0)
            + acc.noChange
        missing := acc.missing
        state := acc.state
        trace := fr.effects ++ acc.trace }
    | none =>
      { rows := ⟨p.shopifyId, p.title, pid, none, p.currentPrice,
          none, "unknown"⟩ :: acc.rows
        increases := acc.increases
        decreases := acc.decreases
        noChange := acc.noChange
        missing := acc.missing + 1
        state := acc.state
        trace := fr.effects ++ acc.trace }

/-- The preview payload of `sync.js` `generatePreview` (lines 198–210). -/
structure PreviewS where
  totalProducts : ℕ
  matchedProducts : ℕ
  unmatchedProducts : ℕ
  showingPreview : ℕ
  products : List PreviewRow
  increases : ℕ
  decreases : ℕ
  noChange : ℕ
  missing : ℕ
  unmatchedSample : List (String × String)
  deriving Repr, DecidableEq

/-- Success-or-error outcome of `sync.js` `generatePreview`. -/
inductive PreviewSOutcome where
  | failed (error : String)
  | done (p : PreviewS)
  deriving Repr, DecidableEq

/-- `PREVIEW_LIMIT` (`sync.js` line 147). -/
def PREVIEW_LIMIT : ℕ := 20

/-- `generatePreview(store, shopifyToken, cjToken, options)` from `sync.js`
lines 129–211: fetch the catalog (one `catalogRead`), fail when it is empty,
otherwise sample the first `PREVIEW_LIMIT` products carrying a CJ id, look up
their supplier prices through `fetchCJPrice`, and build the preview payload.
The returned triple is (outcome, final module state, effect trace). -/
def generatePreview (products : List ShopifyProduct) (now : ℕ)
    (resp : String → CJResponse) (opts : PricingPolicy) (s0 : SyncState) :
    PreviewSOutcome × SyncState × List Effect :=
  if products.isEmpty then
    (.failed "No products found in Shopify store", s0, [.catalogRead])
  else
    let withCjId := products.filter (fun p => sTruthy p.cjProductId)
    let withoutCjId := products.filter (fun p => ¬sTruthy p.cjProductId)
    let toFetch := withCjId.take PREVIEW_LIMIT
    let acc := previewLoop now resp opts toFetch s0
    (.done
      { totalProducts := products.length
        matchedProducts := withCjId.length
        unmatchedProducts := withoutCjId.length
        showingPreview := toFetch.length
        products := acc.rows
        increases := acc.increases
        decreases := acc.decreases
        noChange := acc.noChange
        missing := acc.missing
        unmatchedSample :=
          (withoutCjId.take 10).map (fun p => (p.shopifyId, p.title)) },
      acc.state, .catalogRead :: acc.trace)

/-- One entry of the `errors` list of `sync.js` `executeSync` (lines 241,
259). -/
structure ErrEntryS where
  title : String
  error : String
  deriving Repr, DecidableEq

/-- Accumulator of the `executeSync` loop (`sync.js` lines 227–263).  The
`success` counter is the count of updated products (the returned object spreads
`...results` after `success: true`, so the numeric counter overwrites the
boolean flag). -/
structure ExecAccS where
  success : ℕ
  failed : ℕ
  skipped : ℕ
  errors : List ErrEntryS
  state : SyncState
  trace : List Effect
  deriving Repr, DecidableEq

/-- The scope check of `sync.js` `executeSync` (lines 232–235):
`productIds && !productIds.has(product.shopifyId)`. -/
def scopeSkip (scope : Option (List String)) (p : ShopifyProduct) : Bool :=
  match scope with
  | some ids => ¬ids.contains p.shopifyId
  | none => false

/-- The per-product loop of `sync.js` `executeSync` (lines 230–263): scope
check, supplier price lookup (failure → `failed` with an error entry), the
`|newPrice − currentPrice| < 0.01` skip, and the storefront write with its
success/failure classification. -/
def execLoop (now : ℕ) (resp : String → CJResponse) (unet : String → UpdateNet)
    (scope : Option (List String)) (opts : PricingPolicy) :
    List ShopifyProduct → SyncState → ExecAccS
  | [], s => ⟨0, 0, 0, [], s, []⟩
  | p :: rest, s =>
    if scopeSkip scope p then
      let acc := execLoop now resp unet scope opts rest s
      { acc with skipped := acc.skipped + 1 }
    else
      let pid := sVal p.cjProductId
      let fr := fetchCJPrice pid now (resp pid) s
      let acc := execLoop now resp unet scope opts rest fr.state
      match fr.price with
      | none =>
        { acc with
            failed := acc.failed + 1
            errors := ⟨p.title, "CJ price not found"⟩ :: acc.errors
            trace := fr.effects ++ acc.trace }
      | some cjPrice =>
        let pr := calculatePrice cjPrice opts
        if |pr.price - p.currentPrice| < 1/100 then
          { acc with skipped := acc.skipped + 1, trace := fr.effects ++ acc.trace }
        else
          let u := updateShopifyPrice p.variantId (unet p.shopifyId)
          match u.1 with
          | none =>
            { acc with
                success := acc.success + 1
                trace := fr.effects ++ u.2 ++ acc.trace }
          | some m =>
            { acc with
                failed := acc.failed + 1
                errors := ⟨p.title, m⟩ :: acc.errors
                trace := fr.effects ++ u.2 ++ acc.trace }

/-- The result object of `sync.js` `executeSync` (lines 267–271): the numeric
`success` counter (count of updated products), `failed`, `skipped`, the
error list, and `total` = the number of CJ-id-bearing products. -/
structure SyncResultsS where
  success : ℕ
  failed : ℕ
  skipped : ℕ
  errors : List ErrEntryS
  total : ℕ
  deriving Repr, DecidableEq

/-- `executeSync(store, shopifyToken, cjToken, options)` from `sync.js`
lines 216–272: fetch the catalog, keep the products with a truthy CJ id, run
the per-product loop, and return the counters with `total` set to the number
of kept products. -/
def executeSync (products : List ShopifyProduct) (now : ℕ)
    (resp : String → CJResponse) (unet : String → UpdateNet)
    (scope : Option (List String)) (opts : PricingPolicy) (s0 : SyncState) :
    SyncResultsS × SyncState × List Effect :=
  let withCjId := products.filter (fun p => sTruthy p.cjProductId)
  let acc := execLoop now resp unet scope opts withCjId s0
  ({ success := acc.success
     failed := acc.failed
     skipped := acc.skipped
     errors := acc.errors
     total := withCjId.length },
    acc.state, .catalogRead :: acc.trace)

/-!
## part_008 : the alternative orchestrator (`src/unnamed/part_008`)
-/

namespace P8

/-- One entry of `preview.changes` (`part_008` lines 129–141). -/
structure ChangeRecord where
  shopifyId : String
  title : String
  cjProductId : String
  cjPrice : ℚ
  currentPrice : ℚ
  newPrice : ℚ
  compareAtPrice : Option ℚ
  change : ℚ
  changePercent : ℚ
  direction : String
  matchMethod : String
  deriving Repr, DecidableEq

/-- The preview payload of `part_008` `generatePreview` (lines 144–156). -/
structure Preview8 where
  totalProducts : ℕ
  matchedProducts : ℕ
  unmatchedProducts : ℕ
  changes : List ChangeRecord
  increases : ℕ
  decreases : ℕ
  noChange : ℕ
  unmatchedSample : List UnmatchedProduct
  deriving Repr, DecidableEq

/-- Success-or-error outcome of `part_008` `generatePreview`. -/
inductive PreviewOutcome where
  | failed (error : String)
  | done (p : Preview8)
  deriving Repr, DecidableEq

/-- The change record built for one matched product
(`part_008` lines 121–142). -/
def buildChange (opts : PricingPolicy) (m : MatchedProduct) : ChangeRecord :=
  let pr := calculatePrice m.cjPrice opts
  let ch := calculateChange m.product.currentPrice pr.price
  { shopifyId := m.product.shopifyId
    title := m.product.title
    cjProductId := m.cjProductId
    cjPrice := m.cjPrice
    currentPrice := m.product.currentPrice
    newPrice := pr.price
    compareAtPrice := pr.compareAtPrice
    change := ch.change
    changePercent := ch.changePercent
    direction := ch.direction
    matchMethod := m.matchMethod }

/-- The successful preview payload of `part_008` `generatePreview`
(lines 112–156). -/
def buildPreview (products : List ShopifyProduct) (net : String → MatchNet)
    (opts : PricingPolicy) : Preview8 :=
  let mr := matchProducts products net
  let changes := mr.matched.map (buildChange opts)
  { totalProducts := products.length
    matchedProducts := mr.matched.length
    unmatchedProducts := mr.unmatched.length
    changes := changes
    increases := (changes.filter (fun c => c.direction = "increase")).length
    decreases := (changes.filter (fun c => c.direction = "decrease")).length
    noChange := (changes.filter
      (fun c => c.direction ≠ "increase" ∧ c.direction ≠ "decrease")).length
    unmatchedSample := mr.unmatched.take 10 }

/-- `generatePreview(store, shopifyToken, cjToken, options)` from `part_008`
lines 99–157: fetch the catalog (one `catalogRead`), fail when empty,
run `matchProducts`, and map every matched product through the calculator and
change classifier.  The second component is the effect trace. -/
def generatePreview (products : List ShopifyProduct) (net : String → MatchNet)
    (opts : PricingPolicy) : PreviewOutcome × List Effect :=
  if products.isEmpty then
    (.failed "No products found in Shopify store", [.catalogRead])
  else
    (.done (buildPreview products net opts),
      .catalogRead :: (matchProducts products net).trace)

/-- Outcome of one awaited `updateShopifyPrice` call as seen from the
try/catch in `part_008` `executeSync` (lines 209–239): a success, an error
return (`{success:false, error}`), or a rejected promise caught by the
`catch` branch. -/
inductive UpdateOutcome where
  | ok
  | err (msg : String)
  | threw (msg : String)
  deriving Repr, DecidableEq

/-- One entry of the `errors` list (`part_008` lines 226–230, 234–238). -/
structure ErrEntry8 where
  shopifyId : String
  title : String
  error : String
  deriving Repr, DecidableEq

/-- Accumulator of the update loop of `part_008` `executeSync`. -/
structure UpdateAcc where
  updated : ℕ
  failed : ℕ
  errors : List ErrEntry8
  changes : List ChangeRecord
  trace : List Effect
  deriving Repr, DecidableEq

/-- The update loop of `part_008` `executeSync` (lines 197–243): one write
attempt per change record; a success increments `updated` and records the
change, an error return or a caught throw increments `failed` and records one
error entry carrying the product's `shopifyId` and `title`.  No outcome stops
the loop. -/
def runUpdates (upd : String → UpdateOutcome) :
    List ChangeRecord → UpdateAcc
  | [] => ⟨0, 0, [], [], []⟩
  | c :: rest =>
    let acc := runUpdates upd rest
    match upd c.shopifyId with
    | .ok =>
      { acc with
          updated := acc.updated + 1
          changes := c :: acc.changes
          trace := .shopifyPriceWrite c.shopifyId :: acc.trace }
    | .err m =>
      { acc with
          failed := acc.failed + 1
          errors := ⟨c.shopifyId, c.title, m⟩ :: acc.errors
          trace := .shopifyPriceWrite c.shopifyId :: acc.trace }
    | .threw m =>
      { acc with
          failed := acc.failed + 1
          errors := ⟨c.shopifyId, c.title, m⟩ :: acc.errors
          trace := .shopifyPriceWrite c.shopifyId :: acc.trace }

/-- The filesystem behaviour visible to `saveLog` (`part_008` lines 264–295):
whether `mkdirSync` fails, whether the existing day file fails to parse, how
many entries it holds when it parses, and whether `writeFileSync` fails. -/
structure FsEnv where
  mkdirFails : Bool
  parseFails : Bool
  existingEntries : ℕ
  writeFails : Bool
  deriving Repr, DecidableEq

/-- `saveLog(results)` from `part_008` lines 264–295: `mkdirSync` and
`writeFileSync` are not guarded — their failures propagate as exceptions
(`Except.error`) — while a parse failure of the existing day file is caught
and replaced by an empty list.  On success it returns the number of entries
the day file now holds. -/
def saveLog (env : FsEnv) : Except String ℕ :=
  if env.mkdirFails then .error "mkdir failed"
  else
    let logs := if env.parseFails then 0 else env.existingEntries
    if env.writeFails then .error "write failed"
    else .ok (logs + 1)

/-- The result object of `part_008` `executeSync` (lines 179–187). -/
structure Results8 where
  totalProducts : ℕ
  updated : ℕ
  failed : ℕ
  skipped : ℕ
  changes : List ChangeRecord
  errors : List ErrEntry8
  deriving Repr, DecidableEq

/-- Overall outcome of `part_008` `executeSync`: the preview-failure object
returned at line 176, a rejected promise (an exception escaping, e.g. from
`saveLog`), or the structured result. -/
inductive ExecOutcome where
  | failedPrev (error : String)
  | threw (msg : String)
  | done (r : Results8)
  deriving Repr, DecidableEq

/-- `executeSync(store, shopifyToken, cjToken, options)` from `part_008`
lines 168–258: run `generatePreview` (returning its failure object as-is),
attempt a storefront write for every change whose direction is not `"none"`,
count the `"none"` records as skipped, then `await saveLog(results)` — whose
exception, if any, escapes and rejects the whole call. -/
def executeSync (products : List ShopifyProduct) (net : String → MatchNet)
    (upd : String → UpdateOutcome) (opts : PricingPolicy) (env : FsEnv) :
    ExecOutcome :=
  match generatePreview products net opts with
  | (.failed e, _) => .failedPrev e
  | (.done prev, _) =>
    let toUpdate := prev.changes.filter (fun c => c.direction ≠ "none")
    let acc := runUpdates upd toUpdate
    let results : Results8 :=
      { totalProducts := prev.totalProducts
        updated := acc.updated
        failed := acc.failed
        skipped := (prev.changes.filter (fun c => c.direction = "none")).length
        changes := acc.changes
        errors := acc.errors }
    match saveLog env with
    | .error m => .threw m
    | .ok _ => .done results

end P8

/-!
## Helper lemmas
-/

/-- A rational is an exact multiple of one cent. -/
def isCent (q : ℚ) : Prop := ∃ n : ℤ, q = (n : ℚ) / 100

lemma round2_mono {x y : ℚ} (h : x ≤ y) : round2 x ≤ round2 y := by
  unfold round2
  have h2 : (⌊x * 100 + 1/2⌋ : ℚ) ≤ (⌊y * 100 + 1/2⌋ : ℚ) := by
    exact_mod_cast Int.floor_mono (by linarith)
  linarith

lemma round2_eq_self {q : ℚ} (h : isCent q) : round2 q = q := by
  obtain ⟨n, rfl⟩ := h
  unfold round2
  rw [show ((n : ℚ) / 100) * 100 + 1/2 = (n : ℚ) + 1/2 by ring]
  rw [show ⌊(n : ℚ) + 1/2⌋ = n + ⌊(1/2 : ℚ)⌋ from Int.floor_int_add n (1/2)]
  norm_num

lemma roundToEnding_shape (price ending : ℚ) :
    ∃ k : ℤ, roundToEnding price ending = (k : ℚ) + ending := by
  simp only [roundToEnding]
  split_ifs
  · exact ⟨⌊price⌋, rfl⟩
  · exact ⟨⌊price⌋ + 1, by push_cast; ring⟩
  · exact ⟨⌊price⌋, rfl⟩

/-!
## Claim C1
-/

/-- C1, counterexample: at `raw = 1.9`, `ending = 0.95` the fractional part is
`0.9 ≥ 0.5`, yet `roundToEnding` returns `1.95 = whole + ending`, not
`whole + 1 + ending = 2.95` as the claim's unconditional `0.5` rule demands —
the "already close to ending" early return (distance `< 0.1`) fires first. -/
theorem roundToEnding_claim_counterexample :
    roundToEnding (19/10) (95/100) = 39/20 ∧
    1/2 ≤ (19 : ℚ)/10 - (⌊(19 : ℚ)/10⌋ : ℚ) ∧
    (39/20 : ℚ) ≠ (⌊(19 : ℚ)/10⌋ : ℚ) + 1 + 95/100 := by
  refine ⟨by norm_num [roundToEnding, abs_lt], by norm_num, by norm_num⟩

/-- C1 (amended): for every positive `raw` and every ending, `roundToEnding`
computes `whole = floor(raw)` and `frac = raw - whole` and returns
`whole + 1 + ending` when `frac ≥ 0.5` **and** `frac` is at least `0.1` away
from the ending, and `whole + ending` otherwise (in particular whenever
`|frac - ending| < 0.1`, even with `frac ≥ 0.5`). -/
theorem roundToEnding_amended_spec (raw ending : ℚ) (hpos : 0 < raw) :
    (1/2 ≤ raw - (⌊raw⌋ : ℚ) ∧ 1/10 ≤ |raw - (⌊raw⌋ : ℚ) - ending| →
      roundToEnding raw ending = (⌊raw⌋ : ℚ) + 1 + ending) ∧
    (raw - (⌊raw⌋ : ℚ) < 1/2 ∨ |raw - (⌊raw⌋ : ℚ) - ending| < 1/10 →
      roundToEnding raw ending = (⌊raw⌋ : ℚ) + ending) := by
  simp only [roundToEnding]
  split_ifs with hA hB
  · exact ⟨fun hc => absurd hA (not_lt.2 hc.2), fun _ => rfl⟩
  · refine ⟨fun _ => rfl, fun hc => ?_⟩
    rcases hc with h1 | h2
    · linarith
    · exact absurd h2 hA
  · refine ⟨fun hc => absurd hc.1 ?_, fun _ => rfl⟩
    rw [ge_iff_le] at hB
    exact hB

/-- C1, witness at `raw = 2.5`, `ending = 0.95` (far branch taken). -/
theorem roundToEnding_amended_witness :
    0 < (5/2 : ℚ) ∧ roundToEnding (5/2) (95/100) = (⌊(5 : ℚ)/2⌋ : ℚ) + 1 + 95/100 :=
  ⟨by norm_num,
    (roundToEnding_amended_spec (5/2) (95/100) (by norm_num)).1
      (by constructor <;> norm_num [le_abs])⟩

/-!
## Claim C2
-/

/-- The pricing policy of the spec's example scenarios:
`{markupMultiplier: 2.0, minPrice: 19.99, roundTo: 0.95}`. -/
def examplePolicy : PricingPolicy :=
  { markup_multiplier := 2
    min_price := some (1999/100)
    max_price := none
    round_to := some (95/100)
    show_compare_at := false
    compare_at_markup := 13/10 }

/-- C2, counterexample (the spec's own example 2): with a set rounding ending
of `0.95`, `calculatePrice(5.00)` yields `19.99` (the minimum-price floor) —
the bounds hold but `price - floor(price) = 0.99 ≠ 0.95`, so the two
conjuncts of the claim cannot both hold once clamping fires. -/
theorem calculatePrice_claim_counterexample :
    (calculatePrice 5 examplePolicy).price = 1999/100 ∧
    qTruthy examplePolicy.round_to = true ∧
    ¬((calculatePrice 5 examplePolicy).price -
        (⌊(calculatePrice 5 examplePolicy).price⌋ : ℚ) = 95/100) := by
  have h : (calculatePrice 5 examplePolicy).price = 1999/100 := by
    norm_num [calculatePrice, cappedPrice, flooredPrice, roundedPrice, markedUpPrice,
      roundToEnding, round2, qTruthy, qVal, examplePolicy, abs_lt]
  refine ⟨h, by norm_num [qTruthy, examplePolicy], ?_⟩
  rw [h]
  norm_num

/-- C2 (amended): for `supplierPrice > 0` and a valid policy (positive
cent-valued bounds with `min ≤ max` when both set, a cent-valued ending in
`(0,1)`), the computed price respects `minPrice` and `maxPrice` whenever they
are set; and whenever `roundingEnding` is set **and neither clamp moved the
rounded price**, `price - floor(price)` equals the ending exactly. -/
theorem calculatePrice_amended_spec (cjPrice : ℚ) (o : PricingPolicy)
    (hpos : 0 < cjPrice)
    (hmin : ∀ m, o.min_price = some m → 0 < m ∧ isCent m)
    (hmax : ∀ M, o.max_price = some M → 0 < M ∧ isCent M)
    (hmm : ∀ m M, o.min_price = some m → o.max_price = some M → m ≤ M)
    (hrnd : ∀ e, o.round_to = some e → 0 < e ∧ e < 1 ∧ isCent e) :
    (∀ m, o.min_price = some m → m ≤ (calculatePrice cjPrice o).price) ∧
    (∀ M, o.max_price = some M → (calculatePrice cjPrice o).price ≤ M) ∧
    (∀ e, o.round_to = some e →
      flooredPrice cjPrice o = roundedPrice cjPrice o →
      cappedPrice cjPrice o = roundedPrice cjPrice o →
      (calculatePrice cjPrice o).price -
        (⌊(calculatePrice cjPrice o).price⌋ : ℚ) = e) := by
  have hprice : (calculatePrice cjPrice o).price = round2 (cappedPrice cjPrice o) := rfl
  refine ⟨?_, ?_, ?_⟩
  · -- minimum bound
    intro m hm
    obtain ⟨hm0, hmc⟩ := hmin m hm
    have hqt : qTruthy o.min_price = true := by
      simp only [qTruthy, hm]
      exact decide_eq_true hm0.ne'
    have hqv : qVal o.min_price = m := by simp [qVal, hm]
    have hfl : m ≤ flooredPrice cjPrice o := by
      unfold flooredPrice
      rw [hqv]
      split_ifs with h
      · exact le_refl m
      · push_neg at h
        exact h hqt
    have hcap : m ≤ cappedPrice cjPrice o := by
      unfold cappedPrice
      split_ifs with h
      · obtain ⟨ht, _⟩ := h
        cases hMx : o.max_price with
        | none => rw [hMx] at ht; simp [qTruthy] at ht
        | some M =>
          have hmM := hmm m M hm hMx
          simpa [qVal, hMx] using hmM
      · exact hfl
    calc m = round2 m := (round2_eq_self hmc).symm
      _ ≤ round2 (cappedPrice cjPrice o) := round2_mono hcap
      _ = (calculatePrice cjPrice o).price := hprice.symm
  · -- maximum bound
    intro M hM
    obtain ⟨hM0, hMc⟩ := hmax M hM
    have hqt : qTruthy o.max_price = true := by
      simp only [qTruthy, hM]
      exact decide_eq_true hM0.ne'
    have hqv : qVal o.max_price = M := by simp [qVal, hM]
    have hcap : cappedPrice cjPrice o ≤ M := by
      unfold cappedPrice
      rw [hqv]
      split_ifs with h
      · exact le_refl M
      · push_neg at h
        exact h hqt
    calc (calculatePrice cjPrice o).price = round2 (cappedPrice cjPrice o) := hprice
      _ ≤ round2 M := round2_mono hcap
      _ = M := round2_eq_self hMc
  · -- exact ending when no clamp fired
    intro e he hflEq hcapEq
    have het : qTruthy o.round_to = true := by
      simp only [qTruthy, he]
      exact decide_eq_true (hrnd e he).1.ne'
    have hr : roundedPrice cjPrice o = roundToEnding (markedUpPrice cjPrice o) e := by
      have het' : qTruthy (some e) = true := decide_eq_true (hrnd e he).1.ne'
      simp [roundedPrice, he, het', qVal]
    obtain ⟨k, hk⟩ := roundToEnding_shape (markedUpPrice cjPrice o) e
    have hcapk : cappedPrice cjPrice o = (k : ℚ) + e := by rw [hcapEq, hr, hk]
    have hcent : isCent ((k : ℚ) + e) := by
      obtain ⟨n, hn⟩ := (hrnd e he).2.2
      exact ⟨100 * k + n, by push_cast [hn]; ring⟩
    have hpr : (calculatePrice cjPrice o).price = (k : ℚ) + e := by
      rw [hprice, hcapk, round2_eq_self hcent]
    have hfe : ⌊(k : ℚ) + e⌋ = k := by
      rw [Int.floor_int_add]
      have h0 : ⌊e⌋ = 0 :=
        Int.floor_eq_zero_iff.mpr ⟨(hrnd e he).1.le, (hrnd e he).2.1⟩
      rw [h0, add_zero]
    rw [hpr, hfe]
    ring

/-- C2, witness (the spec's example 1): `computePrice(12.50)` under the example
policy yields `24.95`, within bounds and carrying the `0.95` ending. -/
theorem calculatePrice_amended_witness :
    0 < (25/2 : ℚ) ∧ (calculatePrice (25/2) examplePolicy).price = 519/20 ∧
    (calculatePrice (25/2) examplePolicy).price -
      (⌊(calculatePrice (25/2) examplePolicy).price⌋ : ℚ) = 95/100 := by
  have hmin : ∀ m : ℚ, examplePolicy.min_price = some m → 0 < m ∧ isCent m := by
    intro m hm
    simp only [examplePolicy, Option.some.injEq] at hm
    subst hm
    exact ⟨by norm_num, ⟨1999, by norm_num⟩⟩
  have hmax : ∀ M : ℚ, examplePolicy.max_price = some M → 0 < M ∧ isCent M := by
    intro M hM
    simp [examplePolicy] at hM
  have hmm : ∀ m M : ℚ, examplePolicy.min_price = some m →
      examplePolicy.max_price = some M → m ≤ M := by
    intro m M _ hM
    simp [examplePolicy] at hM
  have hrnd : ∀ e : ℚ, examplePolicy.round_to = some e → 0 < e ∧ e < 1 ∧ isCent e := by
    intro e he
    simp only [examplePolicy, Option.some.injEq] at he
    subst he
    exact ⟨by norm_num, by norm_num, ⟨95, by norm_num⟩⟩
  have h := calculatePrice_amended_spec (25/2) examplePolicy (by norm_num)
    hmin hmax hmm hrnd
  have hnoFloor : flooredPrice (25/2) examplePolicy = roundedPrice (25/2) examplePolicy := by
    norm_num [flooredPrice, roundedPrice, markedUpPrice, roundToEnding, qTruthy, qVal,
      examplePolicy, abs_lt]
  have hnoCap : cappedPrice (25/2) examplePolicy = roundedPrice (25/2) examplePolicy := by
    norm_num [cappedPrice, flooredPrice, roundedPrice, markedUpPrice, roundToEnding,
      qTruthy, qVal, examplePolicy, abs_lt]
  refine ⟨by norm_num, ?_, h.2.2 (95/100) rfl hnoFloor hnoCap⟩
  norm_num [calculatePrice, cappedPrice, flooredPrice, roundedPrice, markedUpPrice,
    roundToEnding, round2, qTruthy, qVal, examplePolicy, abs_lt]

/-!
## Claim C7
-/

/-- C7, counterexample: at `oldPrice = 1`, `newPrice = 1.01` the absolute
delta is exactly `0.01`, which is **not** strictly less than `0.01`, yet the
code classifies the change as `"none"` (its comparisons are strict:
`change > 0.01` / `change < -0.01`). -/
theorem calculateChange_claim_counterexample :
    (calculateChange 1 (101/100)).direction = "none" ∧
    ¬(|(101/100 : ℚ) - 1| < 1/100) := by
  exact ⟨by norm_num [calculateChange], by norm_num [abs_lt]⟩

/-- C7 (amended): the direction is `"none"` iff the absolute delta is at most
`0.01` (boundary included), `"increase"` iff the delta exceeds `0.01`, and
`"decrease"` iff the delta is below `-0.01`. -/
theorem calculateChange_direction_amended_spec (oldPrice newPrice : ℚ) :
    ((calculateChange oldPrice newPrice).direction = "none" ↔
      |newPrice - oldPrice| ≤ 1/100) ∧
    ((calculateChange oldPrice newPrice).direction = "increase" ↔
      1/100 < newPrice - oldPrice) ∧
    ((calculateChange oldPrice newPrice).direction = "decrease" ↔
      newPrice - oldPrice < -(1/100)) := by
  have hdir : (calculateChange oldPrice newPrice).direction =
      (if newPrice - oldPrice > 1/100 then "increase"
       else if newPrice - oldPrice < -(1/100) then "decrease" else "none") := rfl
  rw [hdir]
  split_ifs with h1 h2
  · exact ⟨iff_of_false (by decide) (not_le.mpr (lt_of_lt_of_le h1 (le_abs_self _))),
      iff_of_true rfl h1,
      iff_of_false (by decide) (by linarith)⟩
  · exact ⟨iff_of_false (by decide)
        (not_le.mpr (lt_of_lt_of_le (by linarith) (neg_le_abs _))),
      iff_of_false (by decide) h1,
      iff_of_true rfl h2⟩
  · exact ⟨iff_of_true rfl (abs_le.mpr ⟨by linarith, by linarith⟩),
      iff_of_false (by decide) h1,
      iff_of_false (by decide) h2⟩

/-!
## Claim C10
-/

/-- C10: `calculateChange` is a total function and guards the percentage
computation: for every non-positive old price the returned `changePercent`
is `0` (the code's `oldPrice > 0 ? … : 0` guard), never an undefined or
infinite value. -/
theorem calculateChange_percent_total_spec (oldPrice newPrice : ℚ)
    (h : oldPrice ≤ 0) :
    (calculateChange oldPrice newPrice).changePercent = 0 := by
  have hval : (calculateChange oldPrice newPrice).changePercent =
      round1 (if oldPrice > 0 then (newPrice - oldPrice) / oldPrice * 100 else 0) := rfl
  rw [hval, if_neg (not_lt.2 h)]
  norm_num [round1]

/-- C10, witness at `oldPrice = 0` (the division-by-zero input). -/
theorem calculateChange_percent_total_witness :
    (0 : ℚ) ≤ 0 ∧ (calculateChange 0 5).changePercent = 0 :=
  ⟨le_refl 0, calculateChange_percent_total_spec 0 5 (le_refl 0)⟩

/-!
## Claim C3
-/

/-- Effects that write the link attribute (the CJ-id metafield). -/
def Effect.isMetafieldWrite : Effect → Bool
  | .metafieldWrite _ _ => true
  | _ => false

lemma fetchCJProduct_trace (pid : String) (resp : MatchNet) :
    (fetchCJProduct pid resp).2 = [Effect.cjQuery pid] := by
  cases resp <;> rfl

lemma fetchCJPricesBatch_trace (net : String → MatchNet) (l : List String) :
    (fetchCJPricesBatch net l).2 = l.map Effect.cjQuery := by
  induction l with
  | nil => rfl
  | cons pid rest ih =>
    simp only [fetchCJPricesBatch]
    cases h : net pid with
    | found q =>
      simp only [fetchCJProduct, h]
      split_ifs <;> simp [ih]
    | notFound => simp [fetchCJProduct, h, ih]
    | threw => simp [fetchCJProduct, h, ih]

lemma matchBySku_trace (net : String → MatchNet) (l : List ShopifyProduct) :
    (matchBySku net l).2.2 = l.map (fun p => Effect.cjQuery (sVal p.sku)) := by
  induction l with
  | nil => rfl
  | cons p rest ih =>
    simp only [matchBySku]
    cases h : net (sVal p.sku) with
    | found q =>
      simp only [fetchCJProduct, h]
      split_ifs <;> simp [ih]
    | notFound => simp [fetchCJProduct, h, ih]
    | threw => simp [fetchCJProduct, h, ih]

lemma matchBySku_matched (net : String → MatchNet) (l : List ShopifyProduct) :
    ∀ m ∈ (matchBySku net l).1,
      m.matchMethod = "sku" ∧ m.cjProductId = sVal m.product.sku := by
  induction l with
  | nil => intro m hm; simp [matchBySku] at hm
  | cons p rest ih =>
    intro m hm
    simp only [matchBySku] at hm
    cases h : net (sVal p.sku) with
    | found q =>
      rw [h] at hm
      simp only [fetchCJProduct] at hm
      by_cases hq : q ≠ 0
      · rw [if_pos hq] at hm
        rcases List.mem_cons.mp hm with h1 | h2
        · subst h1; exact ⟨rfl, rfl⟩
        · exact ih m h2
      · rw [if_neg hq] at hm
        exact ih m hm
    | notFound => rw [h] at hm; exact ih m hm
    | threw => rw [h] at hm; exact ih m hm

lemma matchByCjId_matched (prices : List (String × ℚ)) (l : List ShopifyProduct) :
    ∀ m ∈ (matchByCjId prices l).1, m.matchMethod = "metafield" := by
  induction l with
  | nil => intro m hm; simp [matchByCjId] at hm
  | cons p rest ih =>
    intro m hm
    simp only [matchByCjId] at hm
    cases h : prices.lookup (sVal p.cjProductId) with
    | some q =>
      rw [h] at hm
      rcases List.mem_cons.mp hm with h1 | h2
      · subst h1; rfl
      · exact ih m h2
    | none => rw [h] at hm; exact ih m hm

lemma matchProducts_trace_queries (products : List ShopifyProduct)
    (net : String → MatchNet) :
    ∀ e ∈ (matchProducts products net).trace, ∃ pid, e = Effect.cjQuery pid := by
  intro e he
  simp only [matchProducts, fetchCJPricesBatch_trace, matchBySku_trace] at he
  rcases List.mem_append.mp he with h1 | h2
  · obtain ⟨pid, _, rfl⟩ := List.mem_map.mp h1
    exact ⟨pid, rfl⟩
  · obtain ⟨p, _, rfl⟩ := List.mem_map.mp h2
    exact ⟨sVal p.sku, rfl⟩

/-- The storefront product of the counterexample run: no link attribute, a SKU
that is a valid supplier id. -/
def skuProduct : ShopifyProduct :=
  { shopifyId := "7"
    title := "Widget"
    variantId := "v7"
    sku := some "CJ77"
    currentPrice := 10
    currentCompareAtPrice := none
    cjProductId := none }

/-- Supplier oracle resolving exactly the id `CJ77`. -/
def skuNet : String → MatchNet :=
  fun pid => if pid = "CJ77" then .found 4 else .notFound

/-- C3, counterexample: a product with no link attribute whose SKU resolves to
a valid supplier product is matched through the SKU-fallback branch, yet the
run's effect trace contains no metafield write at all — the resolved id is
never persisted back onto the product's link attribute (`setCJMetafield` is
never invoked by `matchProducts`). -/
theorem matchProducts_claim_counterexample :
    (matchProducts [skuProduct] skuNet).matched =
      [⟨skuProduct, "CJ77", 4, "sku"⟩] ∧
    (matchProducts [skuProduct] skuNet).trace = [Effect.cjQuery "CJ77"] ∧
    (matchProducts [skuProduct] skuNet).trace.filter Effect.isMetafieldWrite = [] := by
  refine ⟨?_, ?_, ?_⟩ <;>
    simp [matchProducts, matchBySku, matchByCjId, fetchCJPricesBatch, fetchCJProduct,
      sTruthy, sVal, skuProduct, skuNet, Effect.isMetafieldWrite, List.filter]

/-- C3 (amended): the SKU-fallback branch records the resolved supplier id
only on the in-memory matched record (`cjProductId := sku`); `matchProducts`
performs no link-attribute persistence — its effect trace never contains a
metafield write (`setCJMetafield` is reachable only from the manual
`/api/set-cj-metafield` endpoint). -/
theorem matchProducts_no_persistence_spec (products : List ShopifyProduct)
    (net : String → MatchNet) :
    (matchProducts products net).trace.filter Effect.isMetafieldWrite = [] ∧
    ∀ m ∈ (matchProducts products net).matched,
      m.matchMethod = "sku" → m.cjProductId = sVal m.product.sku := by
  constructor
  · rw [List.filter_eq_nil_iff]
    intro e he
    obtain ⟨pid, rfl⟩ := matchProducts_trace_queries products net e he
    simp [Effect.isMetafieldWrite]
  · intro m hm _
    simp only [matchProducts] at hm
    rcases List.mem_append.mp hm with h1 | h2
    · exact absurd (matchByCjId_matched _ _ m h1) (by intro h; simp_all)
    · exact (matchBySku_matched net _ m h2).2

/-- C3, witness: the amended no-persistence property applied to the concrete
SKU-fallback run. -/
theorem matchProducts_no_persistence_witness :
    (matchProducts [skuProduct] skuNet).trace.filter Effect.isMetafieldWrite = [] ∧
    MatchedProduct.cjProductId ⟨skuProduct, "CJ77", 4, "sku"⟩ = sVal skuProduct.sku :=
  ⟨(matchProducts_no_persistence_spec [skuProduct] skuNet).1,
    (matchProducts_no_persistence_spec [skuProduct] skuNet).2
      ⟨skuProduct, "CJ77", 4, "sku"⟩
      (by simp [matchProducts, matchBySku, matchByCjId, fetchCJPricesBatch,
        fetchCJProduct, sTruthy, sVal, skuProduct, skuNet])
      rfl⟩

/-!
## Claim C4
-/

/-- Definitional unfolding of `fetchCJPrice`. -/
lemma fetchCJPrice_eq (pid : String) (now : ℕ) (resp : CJResponse) (s : SyncState) :
    fetchCJPrice pid now resp s =
      match s.cache.lookup pid with
      | some c =>
        if now - c.ts < CJ_CACHE_TTL then ⟨c.price, s, [], []⟩
        else fetchCJPriceNet pid now resp s
      | none => fetchCJPriceNet pid now resp s := rfl

/-- Module state after a successful lookup of `"A"` (cached at `ts = 0`)
followed by an HTTP-429 rate-limit signal on `"B"`. -/
def cooldownState : SyncState :=
  (fetchCJPrice "B" 1 (.threw (some 429))
    (fetchCJPrice "A" 0 (.ok 10) SyncState.init).state).state

/-- C4, counterexample: after the 429 on `"B"` the module is rate-limited and
the transition was logged, but a subsequent lookup of the cached id `"A"`
within the cool-down window resolves to the **cached price** `10`, not to
`null` — and the matcher's own `fetchCJProduct` (the supplier lookup used by
`matchProducts`) has no cool-down check at all: it performs its network call
unconditionally. -/
theorem fetchCJPrice_claim_counterexample :
    cooldownState.rateLimited = true ∧
    (fetchCJPrice "B" 1 (.threw (some 429))
      (fetchCJPrice "A" 0 (.ok 10) SyncState.init).state).logs =
        [SyncLog.rateLimitedLog] ∧
    (fetchCJPrice "A" 2 (.ok 99) cooldownState).price = some 10 ∧
    (fetchCJPrice "A" 2 (.ok 99) cooldownState).effects = [] ∧
    (fetchCJProduct "X" .notFound).2 = [Effect.cjQuery "X"] :=
  ⟨rfl, rfl, rfl, rfl, rfl⟩

/-- C4 (amended): once `sync.js`'s `fetchCJPrice` has observed a rate-limit
signal, every lookup within the cool-down window performs zero network calls
and emits no log line (so the transition is logged only when it happens, not
once per call); the lookup resolves to `null` unless the id has a cache entry
younger than 24 h, in which case the cached price is returned instead.  (The
matcher's `fetchCJProduct` is not covered: it has no cool-down and always
issues its network call.) -/
theorem fetchCJPrice_cooldown_amended_spec (pid : String) (now : ℕ)
    (resp : CJResponse) (s : SyncState) (hrl : s.rateLimited = true) :
    ((∀ c, s.cache.lookup pid = some c → CJ_CACHE_TTL ≤ now - c.ts) →
      fetchCJPrice pid now resp s = ⟨none, s, [], []⟩) ∧
    (∀ c, s.cache.lookup pid = some c → now - c.ts < CJ_CACHE_TTL →
      fetchCJPrice pid now resp s = ⟨c.price, s, [], []⟩) := by
  constructor
  · intro hstale
    rw [fetchCJPrice_eq]
    cases h : s.cache.lookup pid with
    | some c =>
      dsimp only
      rw [if_neg (not_lt.2 (hstale c h))]
      unfold fetchCJPriceNet
      rw [if_pos hrl]
    | none =>
      dsimp only
      unfold fetchCJPriceNet
      rw [if_pos hrl]
  · intro c h hfresh
    rw [fetchCJPrice_eq, h]
    dsimp only
    rw [if_pos hfresh]

/-- A cool-down state with one fresh cache entry, for the witness. -/
def cooldownCachedState : SyncState :=
  { cache := [("A", ⟨some 10, 0⟩)], rateLimited := true, errorLogged := false }

/-- C4, witness: in the rate-limited state, an uncached id resolves to `null`
with no effects and no logs, and the cached id resolves to its cached price,
also with no effects and no logs. -/
theorem fetchCJPrice_cooldown_amended_witness :
    cooldownCachedState.rateLimited = true ∧
    fetchCJPrice "B" 5 (.ok 3) cooldownCachedState =
      ⟨none, cooldownCachedState, [], []⟩ ∧
    fetchCJPrice "A" 5 (.ok 3) cooldownCachedState =
      ⟨some 10, cooldownCachedState, [], []⟩ :=
  ⟨rfl,
    (fetchCJPrice_cooldown_amended_spec "B" 5 (.ok 3) cooldownCachedState rfl).1
      (by intro c hc; simp [cooldownCachedState, List.lookup] at hc),
    (fetchCJPrice_cooldown_amended_spec "A" 5 (.ok 3) cooldownCachedState rfl).2
      ⟨some 10, 0⟩ (by simp [cooldownCachedState, List.lookup])
      (by norm_num [CJ_CACHE_TTL])⟩

/-!
## Claim C8
-/

lemma fetchCJPriceNet_effects_cases (pid : String) (now : ℕ) (resp : CJResponse)
    (s : SyncState) :
    (fetchCJPriceNet pid now resp s).effects = [] ∨
    (fetchCJPriceNet pid now resp s).effects = [Effect.cjQuery pid] := by
  cases resp <;> unfold fetchCJPriceNet <;> split_ifs <;>
    simp [apply_ite FetchResult.effects]

lemma fetchCJPrice_effects_cases (pid : String) (now : ℕ) (resp : CJResponse)
    (s : SyncState) :
    (fetchCJPrice pid now resp s).effects = [] ∨
    (fetchCJPrice pid now resp s).effects = [Effect.cjQuery pid] := by
  rw [fetchCJPrice_eq]
  cases s.cache.lookup pid with
  | some c =>
    dsimp only
    split_ifs
    · exact Or.inl rfl
    · exact fetchCJPriceNet_effects_cases pid now resp s
  | none => exact fetchCJPriceNet_effects_cases pid now resp s

lemma previewLoop_trace_cons (now : ℕ) (resp : String → CJResponse)
    (opts : PricingPolicy) (p : ShopifyProduct) (rest : List ShopifyProduct)
    (s : SyncState) :
    (previewLoop now resp opts (p :: rest) s).trace =
      (fetchCJPrice (sVal p.cjProductId) now (resp (sVal p.cjProductId)) s).effects ++
      (previewLoop now resp opts rest
        (fetchCJPrice (sVal p.cjProductId) now (resp (sVal p.cjProductId)) s).state).trace := by
  simp only [previewLoop]
  cases (fetchCJPrice (sVal p.cjProductId) now (resp (sVal p.cjProductId)) s).price <;> rfl

lemma previewLoop_trace_queries (now : ℕ) (resp : String → CJResponse)
    (opts : PricingPolicy) (l : List ShopifyProduct) (s : SyncState) :
    ∀ e ∈ (previewLoop now resp opts l s).trace, ∃ q, e = Effect.cjQuery q := by
  induction l generalizing s with
  | nil => intro e he; simp [previewLoop] at he
  | cons p rest ih =>
    intro e he
    rw [previewLoop_trace_cons] at he
    rcases List.mem_append.mp he with h1 | h2
    · rcases fetchCJPrice_effects_cases (sVal p.cjProductId) now
        (resp (sVal p.cjProductId)) s with h | h <;> rw [h] at h1
      · simp at h1
      · rw [List.mem_singleton] at h1
        exact ⟨sVal p.cjProductId, h1⟩
    · exact ih _ e h2

/-- C8: neither preview implementation ever mutates storefront state — for all
inputs the effect trace of `sync.js`'s `generatePreview` and of `part_008`'s
`generatePreview` contains no storefront price write and no link-attribute
(metafield) write, regardless of how many products match or what price
changes are computed. -/
theorem preview_no_storefront_writes_spec (products : List ShopifyProduct)
    (now : ℕ) (resp : String → CJResponse) (opts opts8 : PricingPolicy)
    (s0 : SyncState) (net : String → MatchNet) :
    (generatePreview products now resp opts s0).2.2.filter
      Effect.isStorefrontWrite = [] ∧
    (P8.generatePreview products net opts8).2.filter
      Effect.isStorefrontWrite = [] := by
  constructor
  · rw [List.filter_eq_nil_iff]
    intro e he
    unfold generatePreview at he
    split_ifs at he
    · rw [List.mem_singleton] at he
      subst he
      simp [Effect.isStorefrontWrite]
    · dsimp only at he
      rcases List.mem_cons.mp he with h1 | h2
      · subst h1
        simp [Effect.isStorefrontWrite]
      · obtain ⟨q, rfl⟩ := previewLoop_trace_queries now resp opts _ s0 e h2
        simp [Effect.isStorefrontWrite]
  · rw [List.filter_eq_nil_iff]
    intro e he
    unfold P8.generatePreview at he
    split_ifs at he
    · rw [List.mem_singleton] at he
      subst he
      simp [Effect.isStorefrontWrite]
    · dsimp only at he
      rcases List.mem_cons.mp he with h1 | h2
      · subst h1
        simp [Effect.isStorefrontWrite]
      · obtain ⟨q, rfl⟩ := matchProducts_trace_queries products net e h2
        simp [Effect.isStorefrontWrite]

/-!
## Claim C9
-/

lemma execLoop_invariant (now : ℕ) (resp : String → CJResponse)
    (unet : String → UpdateNet) (scope : Option (List String))
    (opts : PricingPolicy) (l : List ShopifyProduct) (s : SyncState) :
    (execLoop now resp unet scope opts l s).success +
      (execLoop now resp unet scope opts l s).failed +
      (execLoop now resp unet scope opts l s).skipped = l.length ∧
    (execLoop now resp unet scope opts l s).errors.length =
      (execLoop now resp unet scope opts l s).failed := by
  induction l generalizing s with
  | nil => simp [execLoop]
  | cons p rest ih =>
    simp only [execLoop]
    split_ifs with hskip
    · obtain ⟨ih1, ih2⟩ := ih s
      dsimp only
      refine ⟨by simpa using by omega, by simpa using ih2⟩
    · obtain ⟨ih1, ih2⟩ :=
        ih (fetchCJPrice (sVal p.cjProductId) now (resp (sVal p.cjProductId)) s).state
      cases hp : (fetchCJPrice (sVal p.cjProductId) now (resp (sVal p.cjProductId)) s).price with
      | none =>
        dsimp only
        refine ⟨by simpa using by omega, by simpa using by omega⟩
      | some cjPrice =>
        dsimp only
        split_ifs with hlt
        · refine ⟨by simpa using by omega, by simpa using ih2⟩
        · cases hu : (updateShopifyPrice p.variantId (unet p.shopifyId)).1 with
          | none =>
            dsimp only
            refine ⟨by simpa using by omega, by simpa using ih2⟩
          | some m =>
            dsimp only
            refine ⟨by simpa using by omega, by simpa using by omega⟩

/-- C9: the counters returned by `sync.js`'s `executeSync` partition the
processed set — the updated count (the numeric `success` field) plus `failed`
plus `skipped` equals `total`, which is the number of CJ-id-bearing products
fetched from the storefront, and the error list holds exactly one entry per
failed product. -/
theorem executeSync_counters_partition_spec (products : List ShopifyProduct)
    (now : ℕ) (resp : String → CJResponse) (unet : String → UpdateNet)
    (scope : Option (List String)) (opts : PricingPolicy) (s0 : SyncState) :
    (executeSync products now resp unet scope opts s0).1.success +
        (executeSync products now resp unet scope opts s0).1.failed +
        (executeSync products now resp unet scope opts s0).1.skipped =
      (executeSync products now resp unet scope opts s0).1.total ∧
    (executeSync products now resp unet scope opts s0).1.total =
      (products.filter (fun p => sTruthy p.cjProductId)).length ∧
    (executeSync products now resp unet scope opts s0).1.errors.length =
      (executeSync products now resp unet scope opts s0).1.failed := by
  obtain ⟨h1, h2⟩ := execLoop_invariant now resp unet scope opts
    (products.filter (fun p => sTruthy p.cjProductId)) s0
  exact ⟨h1, rfl, h2⟩

/-!
## Claims C5 and C6
-/

/-- The error entry recorded for one change record when its storefront write
does not succeed (`none` when the write succeeds). -/
def P8.updateError (upd : String → P8.UpdateOutcome) (c : P8.ChangeRecord) :
    Option P8.ErrEntry8 :=
  match upd c.shopifyId with
  | .ok => none
  | .err m => some ⟨c.shopifyId, c.title, m⟩
  | .threw m => some ⟨c.shopifyId, c.title, m⟩

lemma runUpdates_spec (upd : String → P8.UpdateOutcome)
    (l : List P8.ChangeRecord) :
    (P8.runUpdates upd l).errors = l.filterMap (P8.updateError upd) ∧
    (P8.runUpdates upd l).changes =
      l.filter (fun c => upd c.shopifyId = P8.UpdateOutcome.ok) ∧
    (P8.runUpdates upd l).updated =
      (l.filter (fun c => upd c.shopifyId = P8.UpdateOutcome.ok)).length ∧
    (P8.runUpdates upd l).failed =
      (l.filterMap (P8.updateError upd)).length ∧
    (P8.runUpdates upd l).updated + (P8.runUpdates upd l).failed = l.length := by
  induction l with
  | nil => simp [P8.runUpdates]
  | cons c rest ih =>
    obtain ⟨ih1, ih2, ih3, ih4, ih5⟩ := ih
    cases hu : upd c.shopifyId <;>
      simp [P8.runUpdates, P8.updateError, hu, List.filter_cons, List.filterMap_cons,
        ih1, ih2, ih3, ih4] <;>
      omega

lemma generatePreview8_ne (products : List ShopifyProduct)
    (net : String → MatchNet) (opts : PricingPolicy)
    (h : products.isEmpty = false) :
    P8.generatePreview products net opts =
      (P8.PreviewOutcome.done (P8.buildPreview products net opts),
        Effect.catalogRead :: (matchProducts products net).trace) := by
  unfold P8.generatePreview
  rw [h]
  rfl

/-- First product of the concrete execute runs. -/
def prodA : ShopifyProduct :=
  { shopifyId := "1", title := "A", variantId := "v1", sku := none
    currentPrice := 10, currentCompareAtPrice := none, cjProductId := some "CJ1" }

/-- Second product of the concrete execute runs. -/
def prodB : ShopifyProduct :=
  { shopifyId := "2", title := "B", variantId := "v2", sku := none
    currentPrice := 5, currentCompareAtPrice := none, cjProductId := some "CJ2" }

/-- Supplier oracle for the concrete execute runs. -/
def net2 : String → MatchNet :=
  fun pid => if pid = "CJ1" then .found 10 else .found 3

/-- Update oracle failing exactly for product `"1"`. -/
def upd2 : String → P8.UpdateOutcome :=
  fun i => if i = "1" then .err "boom" else .ok

/-- C5, counterexample: with every update succeeding but `writeFileSync`
failing, `part_008`'s `executeSync` rejects (`saveLog` has no try/catch around
the directory creation and file write), instead of returning its structured
result — the log-write failure is **not** swallowed. -/
theorem saveLog_claim_counterexample :
    P8.executeSync [prodA] net2 (fun _ => P8.UpdateOutcome.ok) examplePolicy
      ⟨false, false, 0, true⟩ = P8.ExecOutcome.threw "write failed" := by
  norm_num [P8.executeSync, P8.generatePreview, P8.buildPreview, P8.buildChange,
    P8.saveLog, P8.runUpdates, matchProducts, matchByCjId, matchBySku,
    fetchCJPricesBatch, fetchCJProduct, sTruthy, sVal, calculatePrice, cappedPrice,
    flooredPrice, roundedPrice, markedUpPrice, roundToEnding, round2, round1,
    qTruthy, qVal, calculateChange, abs_lt, List.lookup, List.filter,
    prodA, net2, examplePolicy]

/-- C5 (amended): only a failure to **parse** an existing day log is swallowed
(`saveLog` then starts from an empty list and still succeeds); a failure to
create the logs directory or to write the log file propagates out of
`saveLog`, so `executeSync` rejects with that error instead of returning its
structured result. -/
theorem saveLog_amended_spec (products : List ShopifyProduct)
    (net : String → MatchNet) (upd : String → P8.UpdateOutcome)
    (opts : PricingPolicy) (env env2 : P8.FsEnv)
    (hne : products ≠ []) (hmk : env.mkdirFails = false)
    (hwr : env.writeFails = true) (hmk2 : env2.mkdirFails = false)
    (hwr2 : env2.writeFails = false) :
    P8.executeSync products net upd opts env = P8.ExecOutcome.threw "write failed" ∧
    P8.saveLog env2 =
      Except.ok ((if env2.parseFails = true then 0 else env2.existingEntries) + 1) := by
  constructor
  · have hie : products.isEmpty = false := by
      simpa [List.isEmpty_iff] using hne
    unfold P8.executeSync
    rw [generatePreview8_ne products net opts hie]
    dsimp only
    have hsl : P8.saveLog env = Except.error "write failed" := by
      unfold P8.saveLog
      rw [hmk, hwr]
      rfl
    rw [hsl]
  · unfold P8.saveLog
    rw [hmk2, hwr2]
    rfl

/-- C5, witness: the concrete failing-write run rejects while a parse-failure
environment still succeeds. -/
theorem saveLog_amended_witness :
    P8.executeSync [prodA] net2 upd2 examplePolicy ⟨false, false, 0, true⟩ =
      P8.ExecOutcome.threw "write failed" ∧
    P8.saveLog ⟨false, true, 5, false⟩ = Except.ok 1 := by
  have h := saveLog_amended_spec [prodA] net2 upd2 examplePolicy
    ⟨false, false, 0, true⟩ ⟨false, true, 5, false⟩
    (by simp) rfl rfl rfl rfl
  exact ⟨h.1, by simpa using h.2⟩

/-- C6: in `part_008`'s `executeSync`, every change record with a non-`none`
direction is attempted exactly once regardless of other outcomes — a failing
or throwing storefront write adds exactly one error entry carrying that
product's id and title, successful writes are counted as updated, the two
counts partition the attempted set, and (when the log write succeeds) the run
returns the structured `done` result rather than aborting. -/
theorem executeSync8_partial_failure_spec (products : List ShopifyProduct)
    (net : String → MatchNet) (upd : String → P8.UpdateOutcome)
    (opts : PricingPolicy) (env : P8.FsEnv)
    (hne : products ≠ []) (hmk : env.mkdirFails = false)
    (hwr : env.writeFails = false) :
    P8.executeSync products net upd opts env = P8.ExecOutcome.done
      { totalProducts := products.length
        updated := (((P8.buildPreview products net opts).changes.filter
            (fun c => c.direction ≠ "none")).filter
            (fun c => upd c.shopifyId = P8.UpdateOutcome.ok)).length
        failed := (((P8.buildPreview products net opts).changes.filter
            (fun c => c.direction ≠ "none")).filterMap (P8.updateError upd)).length
        skipped := ((P8.buildPreview products net opts).changes.filter
            (fun c => c.direction = "none")).length
        changes := ((P8.buildPreview products net opts).changes.filter
            (fun c => c.direction ≠ "none")).filter
            (fun c => upd c.shopifyId = P8.UpdateOutcome.ok)
        errors := ((P8.buildPreview products net opts).changes.filter
            (fun c => c.direction ≠ "none")).filterMap (P8.updateError upd) } ∧
    (((P8.buildPreview products net opts).changes.filter
        (fun c => c.direction ≠ "none")).filter
        (fun c => upd c.shopifyId = P8.UpdateOutcome.ok)).length +
      (((P8.buildPreview products net opts).changes.filter
        (fun c => c.direction ≠ "none")).filterMap (P8.updateError upd)).length =
      ((P8.buildPreview products net opts).changes.filter
        (fun c => c.direction ≠ "none")).length := by
  have hie : products.isEmpty = false := by simpa [List.isEmpty_iff] using hne
  obtain ⟨e1, e2, e3, e4, e5⟩ := runUpdates_spec upd
    ((P8.buildPreview products net opts).changes.filter (fun c => c.direction ≠ "none"))
  constructor
  · unfold P8.executeSync
    rw [generatePreview8_ne products net opts hie]
    dsimp only
    have hsl : P8.saveLog env =
        Except.ok ((if env.parseFails = true then 0 else env.existingEntries) + 1) := by
      unfold P8.saveLog
      rw [hmk, hwr]
      rfl
    rw [hsl]
    dsimp only
    congr 1
    refine P8.Results8.mk.injEq .. ▸ ?_
    exact ⟨rfl, e3, e4, rfl, e2, e1⟩
  · rw [← e3, ← e4]
    exact e5

/-- C6, witness (the spec's example 6): two products, product `"1"`'s write
fails and product `"2"`'s succeeds — `updated = 1`, `failed = 1`, exactly one
error entry, both attempted, structured result returned. -/
theorem executeSync8_partial_failure_witness :
    P8.executeSync [prodA, prodB] net2 upd2 examplePolicy ⟨false, false, 0, false⟩ =
      P8.ExecOutcome.done
        { totalProducts := 2
          updated := 1
          failed := 1
          skipped := 0
          changes := [⟨"2", "B", "CJ2", 3, 5, 1999/100, none, 1499/100, 1499/5,
            "increase", "metafield"⟩]
          errors := [⟨"1", "A", "boom"⟩] } := by
  have h := executeSync8_partial_failure_spec [prodA, prodB] net2 upd2 examplePolicy
    ⟨false, false, 0, false⟩ (by simp) rfl rfl
  rw [h.1]
  norm_num [P8.buildPreview, P8.buildChange, P8.updateError, matchProducts,
    matchByCjId, matchBySku, fetchCJPricesBatch, fetchCJProduct, sTruthy, sVal,
    calculatePrice, cappedPrice, flooredPrice, roundedPrice, markedUpPrice,
    roundToEnding, round2, round1, compareAtRaw, qTruthy, qVal, calculateChange,
    abs_lt, List.lookup, List.filter, List.filterMap, prodA, prodB, net2, upd2,
    examplePolicy]
  simp [upd2]

end CJScraper
